import Mathlib

/-!
Shallow embedding of the family-point-fe service abstraction layer:
the shared response envelopes, the Supabase-backed data/auth services,
the REST-API-backed data/auth services and the service factory, as
implemented in src/lib/services/data.service.ts, the auth service file
and the factory file.  Backend outcomes (query results, insert errors,
HTTP responses, thrown exceptions) are passed in explicitly.
-/

namespace FamilyPoints

/-- Single-item response envelope, mirroring `ApiResponse<T>`:
`data: T | null`, `error: string | null`. -/
structure ApiResponse (α : Type) where
  data : Option α
  error : Option String
  deriving Repr, DecidableEq

/-- List response envelope, mirroring `ApiListResponse<T>`:
`data: T[] | null`, `error: string | null`, `count?: number`. -/
structure ApiListResponse (α : Type) where
  data : Option (List α)
  error : Option String
  count : Option Nat := none
  deriving Repr, DecidableEq

/-- Mutual-exclusivity invariant for single envelopes: a non-null error
forces a null data field (stated as a disjunction). -/
def envOk {α : Type} (r : ApiResponse α) : Prop :=
  r.error = none ∨ r.data = none

/-- Mutual-exclusivity invariant for list envelopes. -/
def envListOk {α : Type} (r : ApiListResponse α) : Prop :=
  r.error = none ∨ r.data = none

/-- JavaScript `m || d` on an optional string: `null`/`undefined` and the
empty string are falsy and select the default. -/
def jsOrString (m : Option String) (d : String) : String :=
  match m with
  | some s => if s = "" then d else s
  | none => d

/-- JavaScript template-literal interpolation of a nullable string:
`null` renders as the four-character string "null". -/
def jsTemplateOpt (o : Option String) : String :=
  match o with
  | some s => s
  | none => "null"

/-- JavaScript truthiness of a nullable string: present and non-empty. -/
def jsTruthy (o : Option String) : Bool :=
  match o with
  | some s => decide (s ≠ "")
  | none => false

/-- Row of the `families` table as inserted by the service layer
(id, name, created_by). -/
structure FamilyRow where
  id : String
  name : String
  created_by : String
  deriving Repr, DecidableEq

/-- Row of the `user_profiles` table (user_id, email, display_name,
role, nullable family_id). -/
structure UserProfileRow where
  user_id : String
  email : String
  display_name : String
  role : String
  family_id : Option String
  deriving Repr, DecidableEq

/-- Row of the `activities` table as seen by the service layer. -/
structure ActivityRow where
  id : String
  family_id : String
  name : String
  description : Option String
  category : Option String
  points : Int
  created_by : String
  created_at : Nat
  updated_at : Nat
  deriving Repr, DecidableEq

/-- Row of the `rewards` table as seen by the service layer. -/
structure RewardRow where
  id : String
  family_id : String
  name : String
  description : Option String
  points_required : Int
  created_by : String
  created_at : Nat
  updated_at : Nat
  deriving Repr, DecidableEq

/-- Row of the `point_entries` table as seen by the service layer. -/
structure PointEntryRow where
  id : String
  family_id : String
  user_id : String
  activity_id : Option String
  points : Int
  description : Option String
  status : String
  approved_by : Option String
  approved_at : Option Nat
  created_at : Nat
  deriving Repr, DecidableEq

/-- Row of the `reward_redemptions` table as seen by the service layer. -/
structure RewardRedemptionRow where
  id : String
  family_id : String
  user_id : String
  reward_id : String
  points_spent : Int
  status : String
  approved_by : Option String
  approved_at : Option Nat
  created_at : Nat
  deriving Repr, DecidableEq

/-- Backing store visible to the embedded (Supabase) services. -/
structure Database where
  families : List FamilyRow
  user_profiles : List UserProfileRow
  activities : List ActivityRow
  rewards : List RewardRow
  point_entries : List PointEntryRow
  reward_redemptions : List RewardRedemptionRow
  deriving Repr, DecidableEq

/-- Derived `Kid` shape returned by `fetchKidsWithPoints`. -/
structure Kid where
  id : String
  display_name : String
  total_points : Int
  deriving Repr, DecidableEq

/-- Derived `PendingActivity` shape returned by `fetchPendingActivities`. -/
structure PendingActivity where
  id : String
  activity_name : String
  kid_name : String
  points : Int
  submitted_at : Nat
  deriving Repr, DecidableEq

/-- Derived `DashboardStats` shape returned by `fetchDashboardStats`. -/
structure DashboardStats where
  totalKids : Nat
  totalActivities : Nat
  totalRewards : Nat
  pendingApprovals : Nat
  deriving Repr, DecidableEq

/-- Ordering "newer first" on a `created_at` projection, used for the
`order("created_at", ascending: false)` query modifier. -/
def byCreatedDesc {α : Type} (f : α → Nat) (a b : α) : Prop :=
  f b ≤ f a

instance {α : Type} (f : α → Nat) : DecidableRel (byCreatedDesc f) :=
  fun a b => Nat.decLe (f b) (f a)

instance {α : Type} (f : α → Nat) : IsTotal α (byCreatedDesc f) :=
  ⟨fun a b => Nat.le_total (f b) (f a)⟩

instance {α : Type} (f : α → Nat) : IsTrans α (byCreatedDesc f) :=
  ⟨fun _ _ _ h1 h2 => Nat.le_trans h2 h1⟩

/-- Error message produced by a PostgREST `.single()` call that matched
no row. -/
def singleNoRowsMsg : String :=
  "JSON object requested, multiple (or no) rows returned"

/-- Shared `try / if (error) throw / return data / catch` shape of the
Supabase read operations: a backend error is converted into an error
envelope, otherwise the computed value is returned with a null error. -/
def supaEnvelope {α : Type} (backendError : Option String) (value : α) :
    ApiResponse α :=
  match backendError with
  | some msg => { data := none, error := some msg }
  | none => { data := some value, error := none }

/-- List-envelope variant of `supaEnvelope`. -/
def supaListEnvelope {α : Type} (backendError : Option String)
    (value : List α) : ApiListResponse α :=
  match backendError with
  | some msg => { data := none, error := some msg }
  | none => { data := some value, error := none }

/-- Shared shape of the Supabase `.insert(x).select().single()`
mutations: on success the new row is appended and returned. -/
def supaInsert {α : Type} (rows : List α) (newRow : α)
    (backendError : Option String) : List α × ApiResponse α :=
  match backendError with
  | some msg => (rows, { data := none, error := some msg })
  | none => (rows ++ [newRow], { data := some newRow, error := none })

/-- Shared shape of the Supabase `.update(u).eq("id", id).select()
.single()` mutations: every row matching the predicate is rewritten by
`g`; the returned row is the first match, and `.single()` yields an
error when no row matches. -/
def supaSingleUpdate {α : Type} (rows : List α) (pred : α → Bool)
    (g : α → α) (backendError : Option String) :
    List α × ApiResponse α :=
  match backendError with
  | some msg => (rows, { data := none, error := some msg })
  | none =>
    match rows.find? pred with
    | none => (rows, { data := none, error := some singleNoRowsMsg })
    | some e =>
      (rows.map (fun x => if pred x then g x else x),
       { data := some (g e), error := none })

/-- Shared shape of the Supabase `.delete().eq("id", id)` mutations:
matching rows are removed and the success envelope carries null data. -/
def supaDelete {α : Type} (rows : List α) (pred : α → Bool)
    (backendError : Option String) : List α × ApiResponse Unit :=
  match backendError with
  | some msg => (rows, { data := none, error := some msg })
  | none => (rows.filter (fun x => !pred x), { data := none, error := none })

namespace SupabaseDataService

/-- Approved point entries of a given user, as produced by the embedded
`point_entries!inner(points)` relation filtered by
`eq("point_entries.status", "approved")`. -/
def approvedEntriesFor (db : Database) (uid : String) : List PointEntryRow :=
  db.point_entries.filter (fun e => decide (e.user_id = uid ∧ e.status = "approved"))

/-- Embedded-backend `fetchKidsWithPoints`: kid profiles of the family
with their approved entries embedded; the `!inner` join drops profiles
whose embedded list is empty; totals are a reduce over the embedded
points. -/
def fetchKidsWithPoints (db : Database) (familyId : String)
    (backendError : Option String) : ApiListResponse Kid :=
  match backendError with
  | some msg => { data := none, error := some msg }
  | none =>
    let rows := db.user_profiles.filter
      (fun p => decide (p.family_id = some familyId ∧ p.role = "kid"))
    let withEntries := rows.map (fun p => (p, approvedEntriesFor db p.user_id))
    let innerRows := withEntries.filter (fun pe => !pe.2.isEmpty)
    { data := some (innerRows.map (fun pe =>
        { id := pe.1.user_id
          display_name := pe.1.display_name
          total_points := pe.2.foldl (fun s e => s + e.points) 0 })),
      error := none }

/-- Referenced activity row of a point entry (`activities(name)` to-one
embed via `activity_id`). -/
def lookupActivity (db : Database) (aid : Option String) : Option ActivityRow :=
  aid.bind (fun i => db.activities.find? (fun a => decide (a.id = i)))

/-- Referenced user profile of a point entry (`user_profiles(display_name)`
to-one embed via `user_id`). -/
def lookupProfile (db : Database) (uid : String) : Option UserProfileRow :=
  db.user_profiles.find? (fun p => decide (p.user_id = uid))

/-- Embedded-backend `fetchPendingActivities`: pending entries of the
family ordered newest first by `created_at`, with the activity name and
kid display name resolved through JavaScript `||` defaulting. -/
def fetchPendingActivities (db : Database) (familyId : String)
    (backendError : Option String) : ApiListResponse PendingActivity :=
  match backendError with
  | some msg => { data := none, error := some msg }
  | none =>
    let rows := db.point_entries.filter
      (fun e => decide (e.family_id = familyId ∧ e.status = "pending"))
    let ordered := rows.insertionSort (byCreatedDesc (fun e => e.created_at))
    { data := some (ordered.map (fun e =>
        { id := e.id
          activity_name :=
            jsOrString ((lookupActivity db e.activity_id).map (fun a => a.name))
              "Unknown Activity"
          kid_name :=
            jsOrString ((lookupProfile db e.user_id).map (fun p => p.display_name))
              "Unknown Kid"
          points := e.points
          submitted_at := e.created_at })),
      error := none }

/-- Embedded-backend `fetchDashboardStats`: four independent exact
counts joined by `Promise.all`. -/
def fetchDashboardStats (db : Database) (familyId : String)
    (backendError : Option String) : ApiResponse DashboardStats :=
  supaEnvelope backendError
    { totalKids := (db.user_profiles.filter
        (fun p => decide (p.family_id = some familyId ∧ p.role = "kid"))).length
      totalActivities := (db.activities.filter
        (fun a => decide (a.family_id = familyId))).length
      totalRewards := (db.rewards.filter
        (fun w => decide (w.family_id = familyId))).length
      pendingApprovals := (db.point_entries.filter
        (fun e => decide (e.family_id = familyId ∧ e.status = "pending"))).length }

/-- Embedded-backend `fetchActivities`: the family's activities, newest
first. -/
def fetchActivities (db : Database) (familyId : String)
    (backendError : Option String) : ApiListResponse ActivityRow :=
  supaListEnvelope backendError
    ((db.activities.filter (fun a => decide (a.family_id = familyId))).insertionSort
      (byCreatedDesc (fun a => a.created_at)))

/-- Embedded-backend `createActivity`: insert with server-assigned id
and timestamps. -/
def createActivity (db : Database) (newRow : ActivityRow)
    (backendError : Option String) : Database × ApiResponse ActivityRow :=
  let (rows, r) := supaInsert db.activities newRow backendError
  ({ db with activities := rows }, r)

/-- Embedded-backend `updateActivity`: partial patch by id, returning
the patched row via `.single()`. -/
def updateActivity (db : Database) (id : String) (patch : ActivityRow → ActivityRow)
    (backendError : Option String) : Database × ApiResponse ActivityRow :=
  let (rows, r) := supaSingleUpdate db.activities (fun a => decide (a.id = id))
    patch backendError
  ({ db with activities := rows }, r)

/-- Embedded-backend `deleteActivity`: delete by id with no existence
check. -/
def deleteActivity (db : Database) (id : String)
    (backendError : Option String) : Database × ApiResponse Unit :=
  let (rows, r) := supaDelete db.activities (fun a => decide (a.id = id)) backendError
  ({ db with activities := rows }, r)

/-- Embedded-backend `fetchRewards`: the family's rewards, newest
first. -/
def fetchRewards (db : Database) (familyId : String)
    (backendError : Option String) : ApiListResponse RewardRow :=
  supaListEnvelope backendError
    ((db.rewards.filter (fun w => decide (w.family_id = familyId))).insertionSort
      (byCreatedDesc (fun w => w.created_at)))

/-- Embedded-backend `createReward`. -/
def createReward (db : Database) (newRow : RewardRow)
    (backendError : Option String) : Database × ApiResponse RewardRow :=
  let (rows, r) := supaInsert db.rewards newRow backendError
  ({ db with rewards := rows }, r)

/-- Embedded-backend `updateReward`. -/
def updateReward (db : Database) (id : String) (patch : RewardRow → RewardRow)
    (backendError : Option String) : Database × ApiResponse RewardRow :=
  let (rows, r) := supaSingleUpdate db.rewards (fun w => decide (w.id = id))
    patch backendError
  ({ db with rewards := rows }, r)

/-- Embedded-backend `deleteReward`. -/
def deleteReward (db : Database) (id : String)
    (backendError : Option String) : Database × ApiResponse Unit :=
  let (rows, r) := supaDelete db.rewards (fun w => decide (w.id = id)) backendError
  ({ db with rewards := rows }, r)

/-- Embedded-backend `fetchPointEntries`: the family's entries, newest
first, optionally narrowed to one user. -/
def fetchPointEntries (db : Database) (familyId : String) (userId : Option String)
    (backendError : Option String) : ApiListResponse PointEntryRow :=
  supaListEnvelope backendError
    ((db.point_entries.filter (fun e =>
        decide (e.family_id = familyId) &&
        match userId with
        | some uid => decide (e.user_id = uid)
        | none => true)).insertionSort
      (byCreatedDesc (fun e => e.created_at)))

/-- Embedded-backend `createPointEntry`. -/
def createPointEntry (db : Database) (newRow : PointEntryRow)
    (backendError : Option String) : Database × ApiResponse PointEntryRow :=
  let (rows, r) := supaInsert db.point_entries newRow backendError
  ({ db with point_entries := rows }, r)

/-- Embedded-backend `updatePointEntry`. -/
def updatePointEntry (db : Database) (id : String)
    (patch : PointEntryRow → PointEntryRow) (backendError : Option String) :
    Database × ApiResponse PointEntryRow :=
  let (rows, r) := supaSingleUpdate db.point_entries (fun e => decide (e.id = id))
    patch backendError
  ({ db with point_entries := rows }, r)

/-- Field rewrite applied by `approvePointEntry`: status from the flag,
`approved_at` stamped to the current time, `approved_by` to the caller. -/
def approveStamp (approved : Bool) (approvedBy : String) (now : Nat)
    (e : PointEntryRow) : PointEntryRow :=
  { e with
    status := if approved then "approved" else "rejected"
    approved_at := some now
    approved_by := some approvedBy }

/-- Embedded-backend `approvePointEntry`: update-by-id of the three
approval fields, returning the stamped row via `.single()`. -/
def approvePointEntry (db : Database) (id : String) (approved : Bool)
    (approvedBy : String) (now : Nat) (backendError : Option String) :
    Database × ApiResponse PointEntryRow :=
  let (rows, r) := supaSingleUpdate db.point_entries (fun e => decide (e.id = id))
    (approveStamp approved approvedBy now) backendError
  ({ db with point_entries := rows }, r)

/-- Embedded-backend `fetchRewardRedemptions`. -/
def fetchRewardRedemptions (db : Database) (familyId : String)
    (userId : Option String) (backendError : Option String) :
    ApiListResponse RewardRedemptionRow :=
  supaListEnvelope backendError
    ((db.reward_redemptions.filter (fun e =>
        decide (e.family_id = familyId) &&
        match userId with
        | some uid => decide (e.user_id = uid)
        | none => true)).insertionSort
      (byCreatedDesc (fun e => e.created_at)))

/-- Embedded-backend `createRewardRedemption`. -/
def createRewardRedemption (db : Database) (newRow : RewardRedemptionRow)
    (backendError : Option String) : Database × ApiResponse RewardRedemptionRow :=
  let (rows, r) := supaInsert db.reward_redemptions newRow backendError
  ({ db with reward_redemptions := rows }, r)

/-- Field rewrite applied by `approveRewardRedemption`. -/
def approveRedemptionStamp (approved : Bool) (approvedBy : String) (now : Nat)
    (e : RewardRedemptionRow) : RewardRedemptionRow :=
  { e with
    status := if approved then "approved" else "rejected"
    approved_at := some now
    approved_by := some approvedBy }

/-- Embedded-backend `approveRewardRedemption`. -/
def approveRewardRedemption (db : Database) (id : String) (approved : Bool)
    (approvedBy : String) (now : Nat) (backendError : Option String) :
    Database × ApiResponse RewardRedemptionRow :=
  let (rows, r) := supaSingleUpdate db.reward_redemptions
    (fun e => decide (e.id = id)) (approveRedemptionStamp approved approvedBy now)
    backendError
  ({ db with reward_redemptions := rows }, r)

end SupabaseDataService

/-- Outcome of an awaited call on the underlying Supabase client: the
promise either resolves with a value or rejects with an error whose
message is caught (or propagated) by the service layer. -/
inductive ClientOutcome (α : Type) where
  | ok (v : α)
  | thrown (msg : String)
  deriving Repr, DecidableEq

/-- Result shape of `getSession`: `{user: AuthUser | null}`, with the
user reduced to its id. -/
structure SessionResult where
  user : Option String
  deriving Repr, DecidableEq

namespace SupabaseAuthService

/-- Embedded-backend `getSession`.  The method has no try/catch: a
resolved client call yields `session?.user || null`, while a rejected
client promise propagates to the caller. -/
def getSession (outcome : ClientOutcome (Option String)) :
    Except String SessionResult :=
  match outcome with
  | .thrown msg => .error msg
  | .ok sessionUser => .ok { user := sessionUser }

/-- Embedded-backend `signIn`: wraps `signInWithPassword`; a backend
error is thrown and caught into the envelope. -/
def signIn (outcome : Except String String) : ApiResponse String :=
  match outcome with
  | .error msg => { data := none, error := some msg }
  | .ok userId => { data := some userId, error := none }

/-- Backend outcomes consumed by the embedded `signUp`: the
`auth.signUp` call (which may report no user), and the two row
inserts. -/
structure SignUpOutcome where
  authResult : Except String (Option String)
  profileInsertError : Option String
  familyInsertError : Option String
  deriving Repr

/-- Embedded-backend `signUp`: after a successful auth sign-up with a
user, inserts the user profile (family_id is the user's own id for a
parent, null otherwise), then for a parent inserts the family row named
from the display name; any backend error is thrown and caught into the
envelope. -/
def signUp (db : Database) (email _password displayName role : String)
    (o : SignUpOutcome) : Database × ApiResponse String :=
  match o.authResult with
  | .error msg => (db, { data := none, error := some msg })
  | .ok none => (db, { data := none, error := none })
  | .ok (some uid) =>
    match o.profileInsertError with
    | some msg => (db, { data := none, error := some msg })
    | none =>
      let db1 := { db with user_profiles := db.user_profiles ++ [{
          user_id := uid
          email := email
          display_name := displayName
          role := role
          family_id := if role = "parent" then some uid else none }] }
      if role = "parent" then
        match o.familyInsertError with
        | some msg => (db1, { data := none, error := some msg })
        | none =>
          let db2 := { db1 with families := db1.families ++ [{
              id := uid
              name := displayName ++ "\x27s Family"
              created_by := uid }] }
          (db2, { data := some uid, error := none })
      else
        (db1, { data := some uid, error := none })

/-- Embedded-backend `signOut`. -/
def signOut (outcome : Option String) : ApiResponse Unit :=
  match outcome with
  | some msg => { data := none, error := some msg }
  | none => { data := none, error := none }

/-- Profile projection returned by the embedded `fetchUserProfile`. -/
structure AuthUserView where
  id : String
  role : Option String
  family_id : Option String
  display_name : Option String
  deriving Repr, DecidableEq

/-- Embedded-backend `fetchUserProfile`: a missing row surfaces as the
PGRST116 condition, which is swallowed and yields a profile-less user;
any other backend error is thrown and caught into the envelope. -/
def fetchUserProfile (db : Database) (userId : String)
    (backendError : Option String) : ApiResponse AuthUserView :=
  match backendError with
  | some msg => { data := none, error := some msg }
  | none =>
    match db.user_profiles.find? (fun p => decide (p.user_id = userId)) with
    | some p =>
      { data := some { id := userId, role := some p.role,
                       family_id := p.family_id,
                       display_name := some p.display_name },
        error := none }
    | none =>
      { data := some { id := userId, role := none, family_id := none,
                       display_name := none },
        error := none }

end SupabaseAuthService

/-- Outcome of a `fetch` call in the REST implementations: the fetch
(or the body's `json()`) throws, or a response arrives with an ok flag,
an optional `message` field and an optional `data` payload. -/
inductive FetchOutcome (α : Type) where
  | thrown (msg : String)
  | resp (ok : Bool) (message : Option String) (payload : Option α)
  deriving Repr, DecidableEq

/-- Request shape recorded for each REST call: target URL and the
`Authorization` header value. -/
structure HttpRequest where
  url : String
  authorization : String
  deriving Repr, DecidableEq

/-- Envelope produced by the shared `apiCall` body from a fetch
outcome: thrown errors are caught; a non-2xx response uses
`result.message || generic`; a 2xx response returns `result.data`. -/
def fetchEnvelope {α : Type} (o : FetchOutcome α) : ApiResponse α :=
  match o with
  | .thrown msg => { data := none, error := some msg }
  | .resp ok msg payload =>
    if ok then { data := payload, error := none }
    else { data := none, error := some (jsOrString msg "API request failed") }

/-- List-envelope variant produced by `apiListCall`, additionally
propagating `result.count`. -/
def fetchListEnvelope {α : Type} (o : FetchOutcome (List α))
    (count : Option Nat) : ApiListResponse α :=
  match o with
  | .thrown msg => { data := none, error := some msg }
  | .resp ok msg payload =>
    if ok then { data := payload, error := none, count := count }
    else { data := none, error := some (jsOrString msg "API request failed") }

namespace RestApiDataService

/-- REST data-service `apiCall`: one request whose bearer credential is
the `auth_token` read from localStorage at call time (a missing token
interpolates as the string "null"). -/
def apiCall {α : Type} (baseUrl : String) (storageToken : Option String)
    (endpoint : String) (o : FetchOutcome α) : HttpRequest × ApiResponse α :=
  ({ url := baseUrl ++ endpoint,
     authorization := "Bearer " ++ jsTemplateOpt storageToken },
   fetchEnvelope o)

/-- REST data-service `apiListCall`. -/
def apiListCall {α : Type} (baseUrl : String) (storageToken : Option String)
    (endpoint : String) (o : FetchOutcome (List α)) (count : Option Nat) :
    HttpRequest × ApiListResponse α :=
  ({ url := baseUrl ++ endpoint,
     authorization := "Bearer " ++ jsTemplateOpt storageToken },
   fetchListEnvelope o count)

end RestApiDataService

namespace RestApiAuthService

/-- REST auth-service `apiCall`: one request whose bearer credential is
the service's configured `apiKey` (not the stored auth token). -/
def apiCall {α : Type} (baseUrl apiKey : String) (endpoint : String)
    (o : FetchOutcome α) : HttpRequest × ApiResponse α :=
  ({ url := baseUrl ++ endpoint, authorization := "Bearer " ++ apiKey },
   fetchEnvelope o)

/-- Local mutable state of the REST auth service: the `auth_token`
slot of localStorage and the registered auth-state callbacks
(identified by decidable tokens). -/
structure AuthState where
  storage : Option String
  callbacks : List Nat
  deriving Repr, DecidableEq

/-- One delivered auth event: target callback, event name, session
user (null for sign-out). -/
structure AuthEvent where
  target : Nat
  event : String
  sessionUser : Option String
  deriving Repr, DecidableEq

/-- Registration performed by `onAuthStateChange`: the callback is
pushed onto the array. -/
def pushCallback (cbs : List Nat) (c : Nat) : List Nat :=
  cbs ++ [c]

/-- Effect of the handle returned by `onAuthStateChange`: `indexOf`
finds the first occurrence of the callback and `splice` removes it;
absent callbacks are left alone. -/
def unsubscribeCallback (cbs : List Nat) (c : Nat) : List Nat :=
  match cbs with
  | [] => []
  | x :: rest => if x = c then rest else x :: unsubscribeCallback rest c

/-- Events produced by `notifyAuthStateChange`: every registered
callback is invoked once, in registration order. -/
def notifyAuthStateChange (cbs : List Nat) (event : String)
    (sessionUser : Option String) : List AuthEvent :=
  cbs.map (fun c => { target := c, event := event, sessionUser := sessionUser })

/-- Payload of a successful sign-in/up response: `{user, token}`. -/
structure SignInPayload where
  user : String
  token : String
  deriving Repr, DecidableEq

/-- REST `signIn`: on a response with data, the token is stored and a
SIGNED_IN event fires; otherwise state and listeners are untouched and
the apiCall's error is returned. -/
def signIn (baseUrl apiKey : String) (st : AuthState)
    (o : FetchOutcome SignInPayload) :
    AuthState × List AuthEvent × ApiResponse String :=
  let env := (apiCall baseUrl apiKey "/auth/signin" o).2
  match env.data with
  | some p =>
    ({ st with storage := some p.token },
     notifyAuthStateChange st.callbacks "SIGNED_IN" (some p.user),
     { data := some p.user, error := none })
  | none => (st, [], { data := none, error := env.error })

/-- REST `signUp`: same shape as `signIn` with a SIGNED_UP event. -/
def signUp (baseUrl apiKey : String) (st : AuthState)
    (o : FetchOutcome SignInPayload) :
    AuthState × List AuthEvent × ApiResponse String :=
  let env := (apiCall baseUrl apiKey "/auth/signup" o).2
  match env.data with
  | some p =>
    ({ st with storage := some p.token },
     notifyAuthStateChange st.callbacks "SIGNED_UP" (some p.user),
     { data := some p.user, error := none })
  | none => (st, [], { data := none, error := env.error })

/-- REST `signOut`: unconditionally removes the stored token, fires one
SIGNED_OUT event with a null session to every registered callback, and
reports success. -/
def signOut (st : AuthState) :
    AuthState × List AuthEvent × ApiResponse Unit :=
  ({ st with storage := none },
   notifyAuthStateChange st.callbacks "SIGNED_OUT" none,
   { data := none, error := none })

/-- REST `getSession`: a falsy stored token short-circuits to a null
user; otherwise the `/auth/me` envelope's data (null on any failure,
since `apiCall` never throws) becomes the user. -/
def getSession (baseUrl apiKey : String) (storage : Option String)
    (o : FetchOutcome String) : SessionResult :=
  if jsTruthy storage then
    { user := (apiCall baseUrl apiKey "/auth/me" o).2.data }
  else
    { user := none }

/-- REST `fetchUserProfile`: a plain `apiCall` to the profile route. -/
def fetchUserProfile (baseUrl apiKey userId : String)
    (o : FetchOutcome String) : HttpRequest × ApiResponse String :=
  apiCall baseUrl apiKey ("/auth/profile/" ++ userId) o

end RestApiAuthService

/-- Process environment variables read by the factory module. -/
structure Env where
  serviceType : Option String
  apiBaseUrl : Option String
  apiKey : Option String
  supabaseUrl : Option String
  supabaseAnonKey : Option String
  deriving Repr, DecidableEq

/-- Service configuration record (`ServiceConfig`). -/
structure ServiceConfig where
  type : String
  baseUrl : Option String
  apiKey : Option String
  deriving Repr, DecidableEq

/-- Factory's `getServiceConfig`: the type selector defaults to
"supabase" when the variable is falsy; endpoint and key are passed
through unchecked. -/
def getServiceConfig (env : Env) : ServiceConfig :=
  { type := jsOrString env.serviceType "supabase"
    baseUrl := env.apiBaseUrl
    apiKey := env.apiKey }

/-- Factory's `createSupabaseClient`: throws when the URL or anon key
is falsy or still a placeholder. -/
def createSupabaseClient (env : Env) : Except String Unit :=
  if ¬jsTruthy env.supabaseUrl ∨ ¬jsTruthy env.supabaseAnonKey ∨
      env.supabaseUrl = some "your-supabase-url-here" ∨
      env.supabaseAnonKey = some "your-supabase-anon-key-here" then
    .error "Supabase configuration is missing or using placeholder values. Please configure NEXT_PUBLIC_SUPABASE_URL and NEXT_PUBLIC_SUPABASE_ANON_KEY in your .env.local file."
  else
    .ok ()

/-- Concrete service implementation selected by the factory. -/
inductive ServiceImpl where
  | supabaseAuth
  | restAuth (baseUrl apiKey : String)
  | supabaseData
  | restData (baseUrl apiKey : String)
  deriving Repr, DecidableEq

/-- Constructed service instance; the tag distinguishes separately
constructed instances of the same implementation. -/
structure ServiceInst where
  impl : ServiceImpl
  tag : Nat
  deriving Repr, DecidableEq

/-- Mutable state of the `ServiceFactory` singleton: the configuration
read at construction and the two lazily-built cached instances. -/
structure FactoryState where
  config : ServiceConfig
  nextTag : Nat
  authServiceInst : Option ServiceInst
  dataServiceInst : Option ServiceInst
  deriving Repr, DecidableEq

/-- Factory constructor: reads configuration and caches nothing; it
performs no validation and never throws. -/
def mkFactory (env : Env) : FactoryState :=
  { config := getServiceConfig env
    nextTag := 0
    authServiceInst := none
    dataServiceInst := none }

/-- Shared switch body of the two getters: builds the configured
implementation or throws a configuration error. -/
def instantiateService (env : Env) (cfg : ServiceConfig) (tag : Nat)
    (mkSupabase : ServiceImpl) (mkRest : String → String → ServiceImpl) :
    Except String ServiceInst :=
  if cfg.type = "supabase" then
    (createSupabaseClient env).map (fun _ => { impl := mkSupabase, tag := tag })
  else if cfg.type = "rest-api" then
    if jsTruthy cfg.baseUrl ∧ jsTruthy cfg.apiKey then
      .ok { impl := mkRest (cfg.baseUrl.getD "") (cfg.apiKey.getD ""), tag := tag }
    else
      .error "REST API configuration missing: baseUrl and apiKey are required"
  else
    .error ("Unsupported service type: " ++ cfg.type)

/-- Factory `getAuthService`: returns the cached instance when present,
otherwise instantiates per the stored configuration and caches the
result. -/
def getAuthService (env : Env) (st : FactoryState) :
    Except String (ServiceInst × FactoryState) :=
  match st.authServiceInst with
  | some s => .ok (s, st)
  | none =>
    (instantiateService env st.config st.nextTag .supabaseAuth .restAuth).map
      (fun s => (s, { st with authServiceInst := some s, nextTag := st.nextTag + 1 }))

/-- Factory `getDataService`: same shape with its own cache slot. -/
def getDataService (env : Env) (st : FactoryState) :
    Except String (ServiceInst × FactoryState) :=
  match st.dataServiceInst with
  | some s => .ok (s, st)
  | none =>
    (instantiateService env st.config st.nextTag .supabaseData .restData).map
      (fun s => (s, { st with dataServiceInst := some s, nextTag := st.nextTag + 1 }))

/-- Factory `reset`: clears both cached instances and re-reads the
configuration. -/
def resetFactory (env : Env) (st : FactoryState) : FactoryState :=
  { st with
    authServiceInst := none
    dataServiceInst := none
    config := getServiceConfig env }

/-! Concrete fixtures used by witnesses and counterexamples. -/

/-- Kid profile of family "f1". -/
def kidProfile : UserProfileRow :=
  { user_id := "k1", email := "kid@example.com", display_name := "Kid One",
    role := "kid", family_id := some "f1" }

/-- Approved +10 entry of kid "k1". -/
def entryApproved10 : PointEntryRow :=
  { id := "pe10", family_id := "f1", user_id := "k1", activity_id := some "a1",
    points := 10, description := none, status := "approved",
    approved_by := some "p1", approved_at := some 6, created_at := 1 }

/-- Approved +5 entry of kid "k1". -/
def entryApproved5 : PointEntryRow :=
  { id := "pe5", family_id := "f1", user_id := "k1", activity_id := some "a1",
    points := 5, description := none, status := "approved",
    approved_by := some "p1", approved_at := some 7, created_at := 2 }

/-- Rejected +100 entry of kid "k1". -/
def entryRejected100 : PointEntryRow :=
  { id := "pe100", family_id := "f1", user_id := "k1", activity_id := some "a1",
    points := 100, description := none, status := "rejected",
    approved_by := some "p1", approved_at := some 8, created_at := 3 }

/-- Pending entry of kid "k1" referencing activity "a1". -/
def samplePendingEntry : PointEntryRow :=
  { id := "pe1", family_id := "f1", user_id := "k1", activity_id := some "a1",
    points := 4, description := none, status := "pending",
    approved_by := none, approved_at := none, created_at := 5 }

/-- Activity "a1" of family "f1" whose name is the empty string. -/
def emptyNameActivity : ActivityRow :=
  { id := "a1", family_id := "f1", name := "", description := none,
    category := none, points := 3, created_by := "p1", created_at := 0,
    updated_at := 0 }

/-- Store holding only the pending entry. -/
def sampleDb : Database :=
  { families := [], user_profiles := [kidProfile], activities := [],
    rewards := [], point_entries := [samplePendingEntry],
    reward_redemptions := [] }

/-- Store with a kid who has no point entries at all. -/
def dbZeroEntryKid : Database :=
  { families := [], user_profiles := [kidProfile], activities := [],
    rewards := [], point_entries := [], reward_redemptions := [] }

/-- Store realising the spec's worked example: approved +10 and +5 and
a rejected +100 for the same kid. -/
def dbExample : Database :=
  { families := [], user_profiles := [kidProfile], activities := [],
    rewards := [],
    point_entries := [entryApproved10, entryApproved5, entryRejected100],
    reward_redemptions := [] }

/-- Store with a pending entry whose referenced activity exists but has
an empty name. -/
def dbEmptyName : Database :=
  { families := [], user_profiles := [kidProfile],
    activities := [emptyNameActivity], rewards := [],
    point_entries := [samplePendingEntry], reward_redemptions := [] }

/-- Later pending entry by an unknown kid for a missing activity. -/
def pendingEntry2 : PointEntryRow :=
  { id := "pe2", family_id := "f1", user_id := "kX", activity_id := none,
    points := 7, description := none, status := "pending",
    approved_by := none, approved_at := none, created_at := 9 }

/-- Store with two pending entries submitted at times 5 and 9, no
activity rows. -/
def dbTwoPending : Database :=
  { families := [], user_profiles := [kidProfile], activities := [],
    rewards := [], point_entries := [samplePendingEntry, pendingEntry2],
    reward_redemptions := [] }

/-- Store with no rows at all. -/
def emptyDb : Database :=
  { families := [], user_profiles := [], activities := [], rewards := [],
    point_entries := [], reward_redemptions := [] }

/-- Fully successful sign-up backend outcome for new user "u1". -/
def signUpOkOutcome : SupabaseAuthService.SignUpOutcome :=
  { authResult := .ok (some "u1"), profileInsertError := none,
    familyInsertError := none }

/-- Sign-up backend outcome where the family insert is rejected. -/
def signUpFamilyFailOutcome : SupabaseAuthService.SignUpOutcome :=
  { authResult := .ok (some "u1"), profileInsertError := none,
    familyInsertError := some "foreign key violation" }

/-- Environment selecting the REST backend with both values set. -/
def envRest : Env :=
  { serviceType := some "rest-api", apiBaseUrl := some "http://api",
    apiKey := some "k", supabaseUrl := none, supabaseAnonKey := none }

/-- Environment selecting an unsupported service type. -/
def envBogus : Env :=
  { serviceType := some "bogus", apiBaseUrl := none, apiKey := none,
    supabaseUrl := none, supabaseAnonKey := none }

/-- Environment selecting the REST backend with the base URL missing. -/
def envRestMissing : Env :=
  { serviceType := some "rest-api", apiBaseUrl := none, apiKey := some "k",
    supabaseUrl := none, supabaseAnonKey := none }

/-! Helper lemmas about the row-rewriting update combinator. -/

theorem find?_update_map {α : Type} (l : List α) (pred : α → Bool)
    (g : α → α) (hg : ∀ x, pred (g x) = pred x) :
    (l.map (fun x => if pred x then g x else x)).find? pred =
      (l.find? pred).map g := by
  induction l with
  | nil => rfl
  | cons x rest ih =>
    by_cases hx : pred x = true
    · simp [List.find?, hx, hg]
    · simp only [Bool.not_eq_true] at hx
      simp [List.find?, hx, ih]

theorem mem_update_map_of_pred {α : Type} {l : List α} {e : α}
    (pred : α → Bool) (g : α → α) (he : e ∈ l) (hp : pred e = true) :
    g e ∈ l.map (fun x => if pred x then g x else x) := by
  exact List.mem_map.mpr ⟨e, he, by simp [hp]⟩

theorem approveStamp_id (approved : Bool) (approvedBy : String) (now : Nat)
    (e : PointEntryRow) :
    (SupabaseDataService.approveStamp approved approvedBy now e).id = e.id := rfl

theorem approveStamp_override (a1 a2 : Bool) (b1 b2 : String) (n1 n2 : Nat)
    (e : PointEntryRow) :
    SupabaseDataService.approveStamp a2 b2 n2
        (SupabaseDataService.approveStamp a1 b1 n1 e) =
      SupabaseDataService.approveStamp a2 b2 n2 e := rfl

/-- C4: a successful `approvePointEntry(id, approved, approvedBy)`
reports no error, returns the entry with status "approved"/"rejected"
according to the flag, `approved_at` stamped to the current time (hence
non-null) and `approved_by` equal to the caller, and leaves that
stamped entry in the store; calling it a second time on the same entry
also succeeds and simply re-stamps the same three fields. -/
theorem approvePointEntry_stamps_and_restamps
    (db : Database) (id approvedBy approvedBy2 : String)
    (approved approved2 : Bool) (now now2 : Nat) (e : PointEntryRow)
    (hfind : db.point_entries.find? (fun x => decide (x.id = id)) = some e) :
    (SupabaseDataService.approvePointEntry db id approved approvedBy now none).2.error
        = none ∧
    (SupabaseDataService.approvePointEntry db id approved approvedBy now none).2.data
        = some (SupabaseDataService.approveStamp approved approvedBy now e) ∧
    (SupabaseDataService.approveStamp approved approvedBy now e).status
        = (if approved then "approved" else "rejected") ∧
    (SupabaseDataService.approveStamp approved approvedBy now e).approved_at
        = some now ∧
    (SupabaseDataService.approveStamp approved approvedBy now e).approved_by
        = some approvedBy ∧
    SupabaseDataService.approveStamp approved approvedBy now e ∈
      (SupabaseDataService.approvePointEntry db id approved approvedBy now none).1.point_entries ∧
    (SupabaseDataService.approvePointEntry
        (SupabaseDataService.approvePointEntry db id approved approvedBy now none).1
        id approved2 approvedBy2 now2 none).2.error = none ∧
    (SupabaseDataService.approvePointEntry
        (SupabaseDataService.approvePointEntry db id approved approvedBy now none).1
        id approved2 approvedBy2 now2 none).2.data
      = some (SupabaseDataService.approveStamp approved2 approvedBy2 now2 e) := by
  have hp : (fun x : PointEntryRow => decide (x.id = id)) e = true := by
    have := List.find?_some hfind
    simpa using this
  have hmem : e ∈ db.point_entries := List.mem_of_find?_eq_some hfind
  have hgpred : ∀ x : PointEntryRow,
      (fun x : PointEntryRow => decide (x.id = id))
          (SupabaseDataService.approveStamp approved approvedBy now x)
        = (fun x : PointEntryRow => decide (x.id = id)) x := by
    intro x; rfl
  have hrun1 : SupabaseDataService.approvePointEntry db id approved approvedBy now none
      = ({ db with point_entries := (List.map
            (fun x => if (fun x : PointEntryRow => decide (x.id = id)) x
              then SupabaseDataService.approveStamp approved approvedBy now x else x)
            db.point_entries) },
         { data := some (SupabaseDataService.approveStamp approved approvedBy now e),
           error := none }) := by
    simp [SupabaseDataService.approvePointEntry, supaSingleUpdate, hfind]
  have hfind2 : (db.point_entries.map
        (fun x => if (fun x : PointEntryRow => decide (x.id = id)) x
          then SupabaseDataService.approveStamp approved approvedBy now x else x)).find?
        (fun x => decide (x.id = id))
      = some (SupabaseDataService.approveStamp approved approvedBy now e) := by
    rw [find?_update_map _ _ _ hgpred, hfind]
    rfl
  rw [hrun1]
  refine ⟨rfl, rfl, rfl, rfl, rfl, ?_, ?_, ?_⟩
  · exact mem_update_map_of_pred _ _ hmem hp
  · simp only [SupabaseDataService.approvePointEntry, supaSingleUpdate, hfind2]
  · simp only [SupabaseDataService.approvePointEntry, supaSingleUpdate, hfind2]
    rfl

/-- Witness for C4: approving the concrete pending entry succeeds and
stamps it. -/
theorem approvePointEntry_stamps_and_restamps_witness :
    sampleDb.point_entries.find? (fun x => decide (x.id = "pe1"))
        = some samplePendingEntry ∧
    (SupabaseDataService.approvePointEntry sampleDb "pe1" true "p1" 42 none).2.data
        = some (SupabaseDataService.approveStamp true "p1" 42 samplePendingEntry) :=
  ⟨by decide,
   (approvePointEntry_stamps_and_restamps sampleDb "pe1" "p1" "p2" true false 42 43
     samplePendingEntry (by decide)).2.1⟩

/-! Helper lemmas for the kids-with-points query. -/

theorem foldl_points_eq_sum (l : List PointEntryRow) :
    List.foldl (fun s e => s + e.points) 0 l
      = (l.map (fun e => e.points)).sum := by
  rw [List.sum_eq_foldl, List.foldl_map]

theorem nodup_all_eq_singleton {α : Type} {l : List α} {p : α}
    (hnd : l.Nodup) (hmem : p ∈ l) (hall : ∀ x ∈ l, x = p) : l = [p] := by
  cases l with
  | nil => cases hmem
  | cons x rest =>
    have hx : x = p := hall x (List.mem_cons_self x rest)
    subst hx
    have hrest : rest = [] := by
      apply List.eq_nil_iff_forall_not_mem.mpr
      intro y hy
      have hyx : y = x := hall y (List.mem_cons_of_mem _ hy)
      subst hyx
      exact (List.nodup_cons.mp hnd).1 hy
    rw [hrest]

theorem length_filter_eq_one {α : Type} {l : List α} {p : α} (pred : α → Bool)
    (hnd : l.Nodup) (hp : p ∈ l) (hpred : pred p = true)
    (hinj : ∀ x ∈ l, pred x = true → x = p) :
    (l.filter pred).length = 1 := by
  rw [nodup_all_eq_singleton (hnd.filter pred)
    (List.mem_filter.mpr ⟨hp, hpred⟩)
    (fun x hx => hinj x (List.mem_filter.mp hx).1 (List.mem_filter.mp hx).2)]
  rfl

/-- C3 counterexample: a family with exactly one kid-role user who has
no approved point entries yields an empty kids list, not one Kid per
kid-role user — the `!inner` join silently drops zero-entry kids. -/
theorem fetchKidsWithPoints_omits_zero_entry_kid :
    (SupabaseDataService.fetchKidsWithPoints dbZeroEntryKid "f1" none).data
        = some [] ∧
    (dbZeroEntryKid.user_profiles.filter
      (fun p => decide (p.family_id = some "f1" ∧ p.role = "kid"))).length = 1 := by
  exact ⟨rfl, rfl⟩

/-- C3 amended: for every kid-role user of the family that has at least
one approved point entry, the result contains exactly one Kid, whose
`total_points` is the sum of the points of exactly that user's approved
entries (pending and rejected entries contribute nothing); every
returned Kid arises from such a user. -/
theorem fetchKidsWithPoints_approved_sums (db : Database) (fid : String)
    (l : List Kid)
    (hnodup : (db.user_profiles.map (fun p => p.user_id)).Nodup)
    (hdata : (SupabaseDataService.fetchKidsWithPoints db fid none).data = some l) :
    (SupabaseDataService.fetchKidsWithPoints db fid none).error = none ∧
    (∀ k ∈ l, ∃ p, p ∈ db.user_profiles ∧ p.family_id = some fid ∧
      p.role = "kid" ∧ k.id = p.user_id ∧ k.display_name = p.display_name ∧
      SupabaseDataService.approvedEntriesFor db p.user_id ≠ [] ∧
      k.total_points
        = ((SupabaseDataService.approvedEntriesFor db p.user_id).map
            (fun e => e.points)).sum) ∧
    (∀ p ∈ db.user_profiles, p.family_id = some fid → p.role = "kid" →
      SupabaseDataService.approvedEntriesFor db p.user_id ≠ [] →
      (l.filter (fun k => decide (k.id = p.user_id))).length = 1) := by
  have hdef : (SupabaseDataService.fetchKidsWithPoints db fid none).data
      = some ((((db.user_profiles.filter
            (fun p => decide (p.family_id = some fid ∧ p.role = "kid"))).map
            (fun p => (p, SupabaseDataService.approvedEntriesFor db p.user_id))).filter
            (fun pe => !pe.2.isEmpty)).map (fun pe =>
          { id := pe.1.user_id
            display_name := pe.1.display_name
            total_points := pe.2.foldl (fun s e => s + e.points) 0 })) := rfl
  have hl : l = (((db.user_profiles.filter
        (fun p => decide (p.family_id = some fid ∧ p.role = "kid"))).map
        (fun p => (p, SupabaseDataService.approvedEntriesFor db p.user_id))).filter
        (fun pe => !pe.2.isEmpty)).map (fun pe =>
      { id := pe.1.user_id
        display_name := pe.1.display_name
        total_points := pe.2.foldl (fun s e => s + e.points) 0 }) := by
    rw [hdef] at hdata
    exact (Option.some.inj hdata).symm
  subst hl
  refine ⟨rfl, ?_, ?_⟩
  · intro k hk
    obtain ⟨pe, hpe, rfl⟩ := List.mem_map.mp hk
    obtain ⟨hpe1, hpe2⟩ := List.mem_filter.mp hpe
    obtain ⟨p, hpmem, rfl⟩ := List.mem_map.mp hpe1
    obtain ⟨hpprof, hpcond⟩ := List.mem_filter.mp hpmem
    rw [decide_eq_true_eq] at hpcond
    refine ⟨p, hpprof, hpcond.1, hpcond.2, rfl, rfl, ?_, foldl_points_eq_sum _⟩
    intro hnil
    simp [hnil] at hpe2
  · intro p hp hfam hrole hne
    simp only [List.filter_map, List.length_map, List.filter_filter]
    apply length_filter_eq_one _ (List.Nodup.of_map _ hnodup) hp
    · simp [Function.comp, hfam, hrole, List.isEmpty_eq_false.mpr hne]
    · intro x hx hxpred
      simp only [Function.comp_apply, Bool.and_eq_true, decide_eq_true_eq,
        Bool.not_eq_true'] at hxpred
      exact List.inj_on_of_nodup_map hnodup hx hp (by tauto)

/-- Witness for C3's amended theorem: the spec's worked example — an
approved +10, an approved +5 and a rejected +100 yield one Kid with
`total_points = 15`. -/
theorem fetchKidsWithPoints_approved_sums_witness :
    (dbExample.user_profiles.map (fun p => p.user_id)).Nodup ∧
    (SupabaseDataService.fetchKidsWithPoints dbExample "f1" none).data
        = some [{ id := "k1", display_name := "Kid One", total_points := 15 }] ∧
    (SupabaseDataService.fetchKidsWithPoints dbExample "f1" none).error = none :=
  ⟨by decide, by decide,
   (fetchKidsWithPoints_approved_sums dbExample "f1"
     [{ id := "k1", display_name := "Kid One", total_points := 15 }]
     (by decide) (by decide)).1⟩

/-- C8 counterexample: a pending entry whose referenced activity row
exists with the empty string as name is rendered as "Unknown Activity"
(the JavaScript `||` treats the empty name as falsy), not as the
referenced row's name. -/
theorem fetchPendingActivities_empty_name_substituted :
    SupabaseDataService.lookupActivity dbEmptyName samplePendingEntry.activity_id
        = some emptyNameActivity ∧
    emptyNameActivity.name = "" ∧
    (SupabaseDataService.fetchPendingActivities dbEmptyName "f1" none).data
        = some [{ id := "pe1", activity_name := "Unknown Activity",
                  kid_name := "Kid One", points := 4, submitted_at := 5 }] := by
  exact ⟨by decide, rfl, by decide⟩

/-- C8 amended: `fetchPendingActivities(familyId)` returns exactly the
family's status=pending entries, newest first by submission time, each
with the activity name and kid display name resolved, substituting
"Unknown Activity" / "Unknown Kid" when the referenced row is missing
or its name / display name is the empty string. -/
theorem fetchPendingActivities_pending_newest_first (db : Database)
    (fid : String) (l : List PendingActivity)
    (hdata : (SupabaseDataService.fetchPendingActivities db fid none).data = some l) :
    (SupabaseDataService.fetchPendingActivities db fid none).error = none ∧
    List.Perm (l.map (fun a => a.id))
      ((db.point_entries.filter
        (fun e => decide (e.family_id = fid ∧ e.status = "pending"))).map
        (fun e => e.id)) ∧
    l.Pairwise (fun a b => b.submitted_at ≤ a.submitted_at) ∧
    (∀ a ∈ l, ∃ e, e ∈ db.point_entries ∧ e.family_id = fid ∧
      e.status = "pending" ∧ a.id = e.id ∧ a.points = e.points ∧
      a.submitted_at = e.created_at ∧
      a.activity_name
        = (match SupabaseDataService.lookupActivity db e.activity_id with
           | none => "Unknown Activity"
           | some act => if act.name = "" then "Unknown Activity" else act.name) ∧
      a.kid_name
        = (match SupabaseDataService.lookupProfile db e.user_id with
           | none => "Unknown Kid"
           | some p => if p.display_name = "" then "Unknown Kid"
                       else p.display_name)) := by
  have hl : l = ((db.point_entries.filter
        (fun e => decide (e.family_id = fid ∧ e.status = "pending"))).insertionSort
        (byCreatedDesc (fun e => e.created_at))).map (fun e =>
      { id := e.id
        activity_name :=
          jsOrString ((SupabaseDataService.lookupActivity db e.activity_id).map
            (fun a => a.name)) "Unknown Activity"
        kid_name :=
          jsOrString ((SupabaseDataService.lookupProfile db e.user_id).map
            (fun p => p.display_name)) "Unknown Kid"
        points := e.points
        submitted_at := e.created_at }) := by
    exact (Option.some.inj hdata).symm
  subst hl
  refine ⟨rfl, ?_, ?_, ?_⟩
  · rw [List.map_map]
    have hperm := List.perm_insertionSort
      (byCreatedDesc (fun e : PointEntryRow => e.created_at))
      (db.point_entries.filter
        (fun e => decide (e.family_id = fid ∧ e.status = "pending")))
    exact hperm.map (fun e => e.id)
  · have hsorted := List.sorted_insertionSort
      (byCreatedDesc (fun e : PointEntryRow => e.created_at))
      (db.point_entries.filter
        (fun e => decide (e.family_id = fid ∧ e.status = "pending")))
    exact List.Pairwise.map _ (fun a b h => h) hsorted
  · intro a ha
    obtain ⟨e, he, rfl⟩ := List.mem_map.mp ha
    rw [List.mem_insertionSort] at he
    obtain ⟨hemem, hecond⟩ := List.mem_filter.mp he
    rw [decide_eq_true_eq] at hecond
    refine ⟨e, hemem, hecond.1, hecond.2, rfl, rfl, rfl, ?_, ?_⟩
    · cases SupabaseDataService.lookupActivity db e.activity_id <;>
        simp [jsOrString]
    · cases SupabaseDataService.lookupProfile db e.user_id <;>
        simp [jsOrString]

/-- Witness for C8's amended theorem: two pending entries submitted at
times 5 and 9 come back newest first with unknown references
substituted. -/
theorem fetchPendingActivities_pending_newest_first_witness :
    (SupabaseDataService.fetchPendingActivities dbTwoPending "f1" none).data
        = some [{ id := "pe2", activity_name := "Unknown Activity",
                  kid_name := "Unknown Kid", points := 7, submitted_at := 9 },
                { id := "pe1", activity_name := "Unknown Activity",
                  kid_name := "Kid One", points := 4, submitted_at := 5 }] ∧
    (SupabaseDataService.fetchPendingActivities dbTwoPending "f1" none).error
        = none :=
  ⟨by decide,
   (fetchPendingActivities_pending_newest_first dbTwoPending "f1"
     [{ id := "pe2", activity_name := "Unknown Activity",
        kid_name := "Unknown Kid", points := 7, submitted_at := 9 },
      { id := "pe1", activity_name := "Unknown Activity",
        kid_name := "Kid One", points := 4, submitted_at := 5 }]
     (by decide)).1⟩

/-- C2: a parent sign-up that reports success (a non-null user in the
envelope) has created both a Family record with id equal to the new
user's id, name equal to the display name followed by "'s Family" and
created_by equal to the new user's id, and a UserProfile whose
family_id is that same id; and if the auth user was created but either
row insert is rejected, the whole operation returns an error envelope. -/
theorem signUp_parent_provisions_family (db : Database)
    (email pw displayName uid : String)
    (o : SupabaseAuthService.SignUpOutcome) :
    ((SupabaseAuthService.signUp db email pw displayName "parent" o).2.data
        = some uid →
      ({ id := uid, name := displayName ++ "\x27s Family",
         created_by := uid } : FamilyRow)
          ∈ (SupabaseAuthService.signUp db email pw displayName "parent" o).1.families ∧
      ∃ p, p ∈ (SupabaseAuthService.signUp db email pw displayName
            "parent" o).1.user_profiles ∧
        p.user_id = uid ∧ p.family_id = some uid ∧
        p.display_name = displayName ∧ p.email = email ∧ p.role = "parent") ∧
    (o.authResult = .ok (some uid) →
      (o.profileInsertError ≠ none ∨ o.familyInsertError ≠ none) →
      (SupabaseAuthService.signUp db email pw displayName "parent" o).2.data
          = none ∧
      (SupabaseAuthService.signUp db email pw displayName "parent" o).2.error
          ≠ none) := by
  obtain ⟨ar, pErr, fErr⟩ := o
  constructor
  · intro hdata
    cases ar with
    | error msg => simp [SupabaseAuthService.signUp] at hdata
    | ok u? =>
      cases u? with
      | none => simp [SupabaseAuthService.signUp] at hdata
      | some u =>
        cases pErr with
        | some msg => simp [SupabaseAuthService.signUp] at hdata
        | none =>
          cases fErr with
          | some msg => simp [SupabaseAuthService.signUp] at hdata
          | none =>
            have hu : u = uid := by
              simpa [SupabaseAuthService.signUp] using hdata
            subst hu
            refine ⟨?_, ?_⟩
            · simp [SupabaseAuthService.signUp]
            · exact ⟨⟨u, email, displayName, "parent", some u⟩,
                by simp [SupabaseAuthService.signUp], rfl, rfl, rfl, rfl, rfl⟩
  · intro har hins
    subst har
    cases pErr with
    | some msg => simp [SupabaseAuthService.signUp]
    | none =>
      cases fErr with
      | none => simp at hins
      | some msg => simp [SupabaseAuthService.signUp]

/-- Witness for C2: a fully successful parent sign-up of "Alice"
creates "Alice's Family", and one with a rejected family insert
reports an error. -/
theorem signUp_parent_provisions_family_witness :
    (SupabaseAuthService.signUp emptyDb "a@x.com" "pw" "Alice" "parent"
        signUpOkOutcome).2.data = some "u1" ∧
    ({ id := "u1", name := "Alice\x27s Family", created_by := "u1" } : FamilyRow)
        ∈ (SupabaseAuthService.signUp emptyDb "a@x.com" "pw" "Alice" "parent"
            signUpOkOutcome).1.families ∧
    signUpFamilyFailOutcome.authResult = .ok (some "u1") ∧
    (SupabaseAuthService.signUp emptyDb "a@x.com" "pw" "Alice" "parent"
        signUpFamilyFailOutcome).2.error ≠ none :=
  ⟨by decide,
   ((signUp_parent_provisions_family emptyDb "a@x.com" "pw" "Alice" "u1"
       signUpOkOutcome).1 (by decide)).1,
   rfl,
   ((signUp_parent_provisions_family emptyDb "a@x.com" "pw" "Alice" "u1"
       signUpFamilyFailOutcome).2 rfl (Or.inr (by decide))).2⟩

/-- C5 counterexample: when the underlying client's `getSession`
promise rejects, the embedded-backend `getSession` propagates the
rejection to its caller instead of returning a null user — the method
has no try/catch. -/
theorem supabase_getSession_propagates_rejection :
    SupabaseAuthService.getSession (.thrown "network error")
        = .error "network error" ∧
    SupabaseAuthService.getSession (.thrown "network error")
        ≠ .ok { user := none } :=
  ⟨rfl, fun h => Except.noConfusion h⟩

/-- C5 amended: the remote-HTTP `getSession` never fails — with no
stored token, or on a thrown fetch, or on a non-2xx response it returns
a null user; the embedded variant returns the session's user (or null)
whenever the client's promise resolves, but propagates a rejection of
that promise to the caller. -/
theorem getSession_failure_behaviour :
    (∀ (baseUrl apiKey : String) (o : FetchOutcome String),
      RestApiAuthService.getSession baseUrl apiKey none o = { user := none }) ∧
    (∀ (baseUrl apiKey : String) (storage : Option String) (m : String),
      RestApiAuthService.getSession baseUrl apiKey storage (.thrown m)
        = { user := none }) ∧
    (∀ (baseUrl apiKey : String) (storage : Option String)
        (msg payload : Option String),
      RestApiAuthService.getSession baseUrl apiKey storage
        (.resp false msg payload) = { user := none }) ∧
    (∀ s : Option String,
      SupabaseAuthService.getSession (.ok s) = .ok { user := s }) ∧
    (∀ m : String,
      SupabaseAuthService.getSession (.thrown m) = .error m) := by
  refine ⟨?_, ?_, ?_, fun s => rfl, fun m => rfl⟩
  · intro baseUrl apiKey o
    rfl
  · intro baseUrl apiKey storage m
    cases storage with
    | none => rfl
    | some t =>
      by_cases ht : t = ""
      · simp [RestApiAuthService.getSession, jsTruthy, ht]
      · simp [RestApiAuthService.getSession, jsTruthy, ht,
          RestApiAuthService.apiCall, fetchEnvelope]
  · intro baseUrl apiKey storage msg payload
    cases storage with
    | none => rfl
    | some t =>
      by_cases ht : t = ""
      · simp [RestApiAuthService.getSession, jsTruthy, ht]
      · simp [RestApiAuthService.getSession, jsTruthy, ht,
          RestApiAuthService.apiCall, fetchEnvelope]

/-! Helper lemmas about the local listener list. -/

theorem signOut_events_to (st : RestApiAuthService.AuthState) (c : Nat) :
    ((RestApiAuthService.signOut st).2.1.filter
        (fun ev => decide (ev.target = c))).length
      = st.callbacks.countP (fun x => decide (x = c)) := by
  show ((st.callbacks.map _).filter _).length = _
  rw [List.filter_map, List.length_map, List.countP_eq_length_filter]
  rfl

theorem unsubscribeCallback_countP_self (l : List Nat) (c : Nat) :
    (RestApiAuthService.unsubscribeCallback l c).countP
        (fun x => decide (x = c))
      = l.countP (fun x => decide (x = c)) - 1 := by
  induction l with
  | nil => rfl
  | cons x rest ih =>
    by_cases hx : x = c
    · simp [RestApiAuthService.unsubscribeCallback, hx, List.countP_cons]
    · simp only [RestApiAuthService.unsubscribeCallback, hx, if_false,
        List.countP_cons, decide_eq_true_eq, if_neg hx, ih]
      omega

theorem unsubscribeCallback_countP_other (l : List Nat) (c d : Nat)
    (hdc : d ≠ c) :
    (RestApiAuthService.unsubscribeCallback l c).countP
        (fun x => decide (x = d))
      = l.countP (fun x => decide (x = d)) := by
  induction l with
  | nil => rfl
  | cons x rest ih =>
    by_cases hx : x = c
    · subst hx
      simp [RestApiAuthService.unsubscribeCallback, List.countP_cons,
        Ne.symm hdc]
    · simp only [RestApiAuthService.unsubscribeCallback, if_neg hx,
        List.countP_cons, ih]

theorem unsubscribeCallback_of_countP_zero (l : List Nat) (c : Nat)
    (h : l.countP (fun x => decide (x = c)) = 0) :
    RestApiAuthService.unsubscribeCallback l c = l := by
  induction l with
  | nil => rfl
  | cons x rest ih =>
    rw [List.countP_cons] at h
    by_cases hx : x = c
    · simp [hx] at h
    · simp only [decide_eq_true_eq, if_neg hx, Nat.add_zero] at h
      simp [RestApiAuthService.unsubscribeCallback, hx, ih h]

theorem unsubscribeCallback_idem_of_le_one (l : List Nat) (c : Nat)
    (h : l.countP (fun x => decide (x = c)) ≤ 1) :
    RestApiAuthService.unsubscribeCallback
        (RestApiAuthService.unsubscribeCallback l c) c
      = RestApiAuthService.unsubscribeCallback l c :=
  unsubscribeCallback_of_countP_zero _ _
    (by rw [unsubscribeCallback_countP_self]; omega)

/-- C6 counterexample: when the same callback is registered twice, the
returned unsubscribe is not idempotent — a second call removes the
other registration — and after a single unsubscribe a later sign-out
still fires a SIGNED_OUT event to that callback. -/
theorem unsubscribe_not_idempotent_for_duplicate_registration :
    RestApiAuthService.unsubscribeCallback
        (RestApiAuthService.unsubscribeCallback [7, 7] 7) 7 = [] ∧
    RestApiAuthService.unsubscribeCallback [7, 7] 7 = [7] ∧
    ([] : List Nat) ≠ [7] ∧
    (RestApiAuthService.signOut
        { storage := none,
          callbacks := RestApiAuthService.unsubscribeCallback [7, 7] 7 }).2.1
      = [{ target := 7, event := "SIGNED_OUT", sessionUser := none }] :=
  ⟨rfl, rfl, by decide, by decide⟩

/-- C6 amended: every registration present before a `signOut()` receives
exactly one SIGNED_OUT event with a null session (one event per
occurrence of the callback in the list); `unsubscribe()` removes exactly
one registration of exactly that callback; and provided a callback is
registered at most once, unsubscribing twice equals unsubscribing once
and a sign-out after unsubscribing fires no event to it. -/
theorem onAuthStateChange_signout_and_unsubscribe
    (st : RestApiAuthService.AuthState) (c : Nat) :
    ((RestApiAuthService.signOut st).2.1.filter
        (fun ev => decide (ev.target = c))).length
      = st.callbacks.countP (fun x => decide (x = c)) ∧
    (∀ ev ∈ (RestApiAuthService.signOut st).2.1,
      ev.event = "SIGNED_OUT" ∧ ev.sessionUser = none) ∧
    (RestApiAuthService.unsubscribeCallback st.callbacks c).countP
        (fun x => decide (x = c))
      = st.callbacks.countP (fun x => decide (x = c)) - 1 ∧
    (∀ d, d ≠ c →
      (RestApiAuthService.unsubscribeCallback st.callbacks c).countP
          (fun x => decide (x = d))
        = st.callbacks.countP (fun x => decide (x = d))) ∧
    (st.callbacks.countP (fun x => decide (x = c)) ≤ 1 →
      RestApiAuthService.unsubscribeCallback
          (RestApiAuthService.unsubscribeCallback st.callbacks c) c
        = RestApiAuthService.unsubscribeCallback st.callbacks c) ∧
    (st.callbacks.countP (fun x => decide (x = c)) ≤ 1 →
      ((RestApiAuthService.signOut
          { st with callbacks :=
              RestApiAuthService.unsubscribeCallback st.callbacks c }).2.1.filter
        (fun ev => decide (ev.target = c))).length = 0) := by
  refine ⟨signOut_events_to st c, ?_, unsubscribeCallback_countP_self _ _,
    fun d hd => unsubscribeCallback_countP_other _ _ _ hd,
    unsubscribeCallback_idem_of_le_one _ _, ?_⟩
  · intro ev hev
    obtain ⟨cb, _, rfl⟩ := List.mem_map.mp hev
    exact ⟨rfl, rfl⟩
  · intro hle
    rw [signOut_events_to, unsubscribeCallback_countP_self]
    omega

/-- Witness for C6's amended theorem at a concrete listener list. -/
theorem onAuthStateChange_signout_and_unsubscribe_witness :
    (([1, 2] : List Nat).countP (fun x => decide (x = 1)) ≤ 1) ∧
    RestApiAuthService.unsubscribeCallback
        (RestApiAuthService.unsubscribeCallback [1, 2] 1) 1
      = RestApiAuthService.unsubscribeCallback [1, 2] 1 ∧
    ((RestApiAuthService.signOut
        { storage := some "tok",
          callbacks := RestApiAuthService.unsubscribeCallback [1, 2] 1 }).2.1.filter
      (fun ev => decide (ev.target = 1))).length = 0 :=
  ⟨by decide,
   (onAuthStateChange_signout_and_unsubscribe
     { storage := some "tok", callbacks := [1, 2] } 1).2.2.2.2.1 (by decide),
   (onAuthStateChange_signout_and_unsubscribe
     { storage := some "tok", callbacks := [1, 2] } 1).2.2.2.2.2 (by decide)⟩

/-- C7: evaluation at the failing input — with API key "key123"
configured and auth token "tok456" in storage, an auth-service call
sends "Bearer key123" in the Authorization header while a data-service
call sends "Bearer tok456"; the auth service does not replay the stored
token. -/
theorem authService_apiCall_sends_apiKey_not_token :
    (RestApiAuthService.apiCall "http://api" "key123" "/auth/profile/u1"
        (FetchOutcome.resp true none (some "u1"))).1.authorization
      = "Bearer key123" ∧
    (RestApiDataService.apiCall "http://api" (some "tok456") "/activities"
        (FetchOutcome.resp true none (some "x"))).1.authorization
      = "Bearer tok456" ∧
    ("Bearer key123" : String) ≠ "Bearer tok456" :=
  ⟨rfl, rfl, by decide⟩

/-- C10: a remote `signIn` whose API call yields no user returns a
null-data envelope carrying the apiCall's error while leaving the
stored token and the listener list untouched and firing no events; a
thrown fetch or non-2xx response makes that error non-null; and the
token write plus the single SIGNED_IN notification happen exactly when
a user is returned. -/
theorem restSignIn_failure_frame (baseUrl apiKey : String)
    (st : RestApiAuthService.AuthState)
    (o : FetchOutcome RestApiAuthService.SignInPayload) :
    ((RestApiAuthService.apiCall baseUrl apiKey "/auth/signin" o).2.data = none →
      (RestApiAuthService.signIn baseUrl apiKey st o).1 = st ∧
      (RestApiAuthService.signIn baseUrl apiKey st o).2.1 = [] ∧
      (RestApiAuthService.signIn baseUrl apiKey st o).2.2
        = { data := none,
            error := (RestApiAuthService.apiCall baseUrl apiKey
              "/auth/signin" o).2.error }) ∧
    (∀ m, o = .thrown m →
      (RestApiAuthService.signIn baseUrl apiKey st o).2.2.data = none ∧
      (RestApiAuthService.signIn baseUrl apiKey st o).2.2.error ≠ none) ∧
    (∀ msg payload, o = .resp false msg payload →
      (RestApiAuthService.signIn baseUrl apiKey st o).2.2.data = none ∧
      (RestApiAuthService.signIn baseUrl apiKey st o).2.2.error ≠ none) ∧
    (∀ p, (RestApiAuthService.apiCall baseUrl apiKey "/auth/signin" o).2.data
        = some p →
      (RestApiAuthService.signIn baseUrl apiKey st o).1
        = { st with storage := some p.token } ∧
      (RestApiAuthService.signIn baseUrl apiKey st o).2.1
        = RestApiAuthService.notifyAuthStateChange st.callbacks "SIGNED_IN"
            (some p.user) ∧
      (RestApiAuthService.signIn baseUrl apiKey st o).2.2
        = { data := some p.user, error := none }) := by
  refine ⟨?_, ?_, ?_, ?_⟩
  · intro henv
    simp [RestApiAuthService.signIn, henv]
  · rintro m rfl
    simp [RestApiAuthService.signIn, RestApiAuthService.apiCall, fetchEnvelope]
  · rintro msg payload rfl
    simp [RestApiAuthService.signIn, RestApiAuthService.apiCall, fetchEnvelope]
  · intro p henv
    simp [RestApiAuthService.signIn, henv]

/-- Witness for C10: a 401-style error envelope leaves the old token in
place and fires nothing. -/
theorem restSignIn_failure_frame_witness :
    (RestApiAuthService.apiCall "http://api" "k" "/auth/signin"
        (FetchOutcome.resp (α := RestApiAuthService.SignInPayload) false
          (some "Invalid credentials") none)).2.data = none ∧
    (RestApiAuthService.signIn "http://api" "k"
        { storage := some "old", callbacks := [3] }
        (FetchOutcome.resp false (some "Invalid credentials") none)).1
      = { storage := some "old", callbacks := [3] } :=
  ⟨by decide,
   ((restSignIn_failure_frame "http://api" "k"
       { storage := some "old", callbacks := [3] }
       (FetchOutcome.resp false (some "Invalid credentials") none)).1
     (by decide)).1⟩

/-! Helper lemmas about the service factory. -/

theorem instantiateService_tag (env : Env) (cfg : ServiceConfig) (tag : Nat)
    (mkS : ServiceImpl) (mkR : String → String → ServiceImpl)
    (s : ServiceInst)
    (h : instantiateService env cfg tag mkS mkR = .ok s) : s.tag = tag := by
  unfold instantiateService at h
  split at h
  · cases hc : createSupabaseClient env with
    | error m => rw [hc] at h; exact Except.noConfusion h
    | ok u =>
      rw [hc] at h
      simp only [Except.map, Except.ok.injEq] at h
      rw [← h]
  · split at h
    · split at h
      · simp only [Except.ok.injEq] at h
        rw [← h]
      · exact Except.noConfusion h
    · exact Except.noConfusion h

/-- C9: the factory getters return the cached instance on every call
after the first; the constructor only records the configuration (no
validation, no failure); an unsupported service type, or the REST type
without both a base URL and an API key, makes the first getter call
fail with a configuration error; and `reset()` clears both cached
instances, re-reads the configuration, and makes the next getter call
construct a fresh instance. -/
theorem serviceFactory_caching_and_config :
    (∀ (env : Env) (st : FactoryState) (s : ServiceInst) (st2 : FactoryState),
      getAuthService env st = .ok (s, st2) →
      getAuthService env st2 = .ok (s, st2)) ∧
    (∀ (env : Env) (st : FactoryState) (s : ServiceInst) (st2 : FactoryState),
      getDataService env st = .ok (s, st2) →
      getDataService env st2 = .ok (s, st2)) ∧
    (∀ env : Env, mkFactory env
      = { config := getServiceConfig env, nextTag := 0,
          authServiceInst := none, dataServiceInst := none }) ∧
    (∀ (env : Env) (st : FactoryState),
      st.config.type ≠ "supabase" → st.config.type ≠ "rest-api" →
      st.authServiceInst = none →
      getAuthService env st
        = .error ("Unsupported service type: " ++ st.config.type)) ∧
    (∀ (env : Env) (st : FactoryState),
      st.config.type ≠ "supabase" → st.config.type ≠ "rest-api" →
      st.dataServiceInst = none →
      getDataService env st
        = .error ("Unsupported service type: " ++ st.config.type)) ∧
    (∀ (env : Env) (st : FactoryState),
      st.config.type = "rest-api" →
      ¬(jsTruthy st.config.baseUrl ∧ jsTruthy st.config.apiKey) →
      st.authServiceInst = none →
      getAuthService env st
        = .error "REST API configuration missing: baseUrl and apiKey are required") ∧
    (∀ (env : Env) (st : FactoryState),
      st.config.type = "rest-api" →
      ¬(jsTruthy st.config.baseUrl ∧ jsTruthy st.config.apiKey) →
      st.dataServiceInst = none →
      getDataService env st
        = .error "REST API configuration missing: baseUrl and apiKey are required") ∧
    (∀ (env2 : Env) (st : FactoryState), resetFactory env2 st
      = { config := getServiceConfig env2, nextTag := st.nextTag,
          authServiceInst := none, dataServiceInst := none }) ∧
    (∀ (env : Env) (st : FactoryState) (s : ServiceInst) (st2 : FactoryState),
      getAuthService env (resetFactory env st) = .ok (s, st2) →
      s.tag = st.nextTag) := by
  refine ⟨?_, ?_, fun env => rfl, ?_, ?_, ?_, ?_, fun env2 st => rfl, ?_⟩
  · intro env st s st2 h
    cases hcache : st.authServiceInst with
    | some s0 =>
      rw [getAuthService, hcache] at h
      simp only [Except.ok.injEq, Prod.mk.injEq] at h
      obtain ⟨rfl, rfl⟩ := h
      rw [getAuthService, hcache]
    | none =>
      rw [getAuthService, hcache] at h
      cases hins : instantiateService env st.config st.nextTag .supabaseAuth
          .restAuth with
      | error m => rw [hins] at h; exact Except.noConfusion h
      | ok si =>
        rw [hins] at h
        simp only [Except.map, Except.ok.injEq, Prod.mk.injEq] at h
        obtain ⟨rfl, rfl⟩ := h
        rfl
  · intro env st s st2 h
    cases hcache : st.dataServiceInst with
    | some s0 =>
      rw [getDataService, hcache] at h
      simp only [Except.ok.injEq, Prod.mk.injEq] at h
      obtain ⟨rfl, rfl⟩ := h
      rw [getDataService, hcache]
    | none =>
      rw [getDataService, hcache] at h
      cases hins : instantiateService env st.config st.nextTag .supabaseData
          .restData with
      | error m => rw [hins] at h; exact Except.noConfusion h
      | ok si =>
        rw [hins] at h
        simp only [Except.map, Except.ok.injEq, Prod.mk.injEq] at h
        obtain ⟨rfl, rfl⟩ := h
        rfl
  · intro env st h1 h2 hcache
    rw [getAuthService, hcache, instantiateService, if_neg h1, if_neg h2]
    rfl
  · intro env st h1 h2 hcache
    rw [getDataService, hcache, instantiateService, if_neg h1, if_neg h2]
    rfl
  · intro env st h1 h2 hcache
    rw [getAuthService, hcache, instantiateService,
      if_neg (by rw [h1]; intro hcon; exact absurd hcon (by decide)),
      if_pos h1, if_neg h2]
    rfl
  · intro env st h1 h2 hcache
    rw [getDataService, hcache, instantiateService,
      if_neg (by rw [h1]; intro hcon; exact absurd hcon (by decide)),
      if_pos h1, if_neg h2]
    rfl
  · intro env st s st2 h
    rw [getAuthService] at h
    cases hins : instantiateService env (resetFactory env st).config
        (resetFactory env st).nextTag .supabaseAuth .restAuth with
    | error m =>
      rw [show (resetFactory env st).authServiceInst = none from rfl,
        hins] at h
      exact Except.noConfusion h
    | ok si =>
      rw [show (resetFactory env st).authServiceInst = none from rfl,
        hins] at h
      simp only [Except.map, Except.ok.injEq, Prod.mk.injEq] at h
      obtain ⟨rfl, rfl⟩ := h
      exact instantiateService_tag _ _ _ _ _ _ hins

/-- Witness for C9: the REST configuration instantiates once and is
then served from the cache; a bogus type and a missing base URL fail at
the first getter call. -/
theorem serviceFactory_caching_and_config_witness :
    getAuthService envRest (mkFactory envRest)
      = .ok ({ impl := .restAuth "http://api" "k", tag := 0 },
             { config := getServiceConfig envRest, nextTag := 1,
               authServiceInst :=
                 some { impl := .restAuth "http://api" "k", tag := 0 },
               dataServiceInst := none }) ∧
    getAuthService envRest
        { config := getServiceConfig envRest, nextTag := 1,
          authServiceInst :=
            some { impl := .restAuth "http://api" "k", tag := 0 },
          dataServiceInst := none }
      = .ok ({ impl := .restAuth "http://api" "k", tag := 0 },
             { config := getServiceConfig envRest, nextTag := 1,
               authServiceInst :=
                 some { impl := .restAuth "http://api" "k", tag := 0 },
               dataServiceInst := none }) ∧
    getAuthService envBogus (mkFactory envBogus)
      = .error ("Unsupported service type: "
          ++ (mkFactory envBogus).config.type) ∧
    getAuthService envRestMissing (mkFactory envRestMissing)
      = .error "REST API configuration missing: baseUrl and apiKey are required" :=
  ⟨rfl,
   serviceFactory_caching_and_config.1 envRest (mkFactory envRest)
     { impl := .restAuth "http://api" "k", tag := 0 }
     { config := getServiceConfig envRest, nextTag := 1,
       authServiceInst := some { impl := .restAuth "http://api" "k", tag := 0 },
       dataServiceInst := none } rfl,
   serviceFactory_caching_and_config.2.2.2.1 envBogus (mkFactory envBogus)
     (by decide) (by decide) rfl,
   serviceFactory_caching_and_config.2.2.2.2.2.1 envRestMissing
     (mkFactory envRestMissing) rfl (by decide) rfl⟩

/-! Helper lemmas for the envelope invariant. -/

theorem envOk_supaEnvelope {α : Type} (err : Option String) (v : α) :
    envOk (supaEnvelope err v) := by
  cases err <;> simp [envOk, supaEnvelope]

theorem envListOk_supaListEnvelope {α : Type} (err : Option String)
    (v : List α) : envListOk (supaListEnvelope err v) := by
  cases err <;> simp [envListOk, supaListEnvelope]

theorem envOk_supaInsert {α : Type} (rows : List α) (r : α)
    (err : Option String) : envOk (supaInsert rows r err).2 := by
  cases err <;> simp [envOk, supaInsert]

theorem envOk_supaSingleUpdate {α : Type} (rows : List α) (pred : α → Bool)
    (g : α → α) (err : Option String) :
    envOk (supaSingleUpdate rows pred g err).2 := by
  cases err with
  | some m => simp [envOk, supaSingleUpdate]
  | none =>
    cases h : rows.find? pred <;> simp [envOk, supaSingleUpdate, h]

theorem envOk_supaDelete {α : Type} (rows : List α) (pred : α → Bool)
    (err : Option String) : envOk (supaDelete rows pred err).2 := by
  cases err <;> simp [envOk, supaDelete]

theorem envOk_fetchEnvelope {α : Type} (o : FetchOutcome α) :
    envOk (fetchEnvelope o) := by
  cases o with
  | thrown m => simp [envOk, fetchEnvelope]
  | resp ok msg p => cases ok <;> simp [envOk, fetchEnvelope]

theorem envListOk_fetchListEnvelope {α : Type} (o : FetchOutcome (List α))
    (cnt : Option Nat) : envListOk (fetchListEnvelope o cnt) := by
  cases o with
  | thrown m => simp [envListOk, fetchListEnvelope]
  | resp ok msg p => cases ok <;> simp [envListOk, fetchListEnvelope]

/-- C1: for every operation of both data-service variants and both
auth-service variants, over all inputs and backend outcomes, the
returned envelope has a null error or a null data field — a non-null
error forces null data. -/
theorem every_operation_envelope_exclusive :
    (∀ (db : Database) (fid : String) (err : Option String),
      envListOk (SupabaseDataService.fetchKidsWithPoints db fid err)) ∧
    (∀ (db : Database) (fid : String) (err : Option String),
      envListOk (SupabaseDataService.fetchPendingActivities db fid err)) ∧
    (∀ (db : Database) (fid : String) (err : Option String),
      envOk (SupabaseDataService.fetchDashboardStats db fid err)) ∧
    (∀ (db : Database) (fid : String) (err : Option String),
      envListOk (SupabaseDataService.fetchActivities db fid err)) ∧
    (∀ (db : Database) (row : ActivityRow) (err : Option String),
      envOk (SupabaseDataService.createActivity db row err).2) ∧
    (∀ (db : Database) (id : String) (patch : ActivityRow → ActivityRow)
        (err : Option String),
      envOk (SupabaseDataService.updateActivity db id patch err).2) ∧
    (∀ (db : Database) (id : String) (err : Option String),
      envOk (SupabaseDataService.deleteActivity db id err).2) ∧
    (∀ (db : Database) (fid : String) (err : Option String),
      envListOk (SupabaseDataService.fetchRewards db fid err)) ∧
    (∀ (db : Database) (row : RewardRow) (err : Option String),
      envOk (SupabaseDataService.createReward db row err).2) ∧
    (∀ (db : Database) (id : String) (patch : RewardRow → RewardRow)
        (err : Option String),
      envOk (SupabaseDataService.updateReward db id patch err).2) ∧
    (∀ (db : Database) (id : String) (err : Option String),
      envOk (SupabaseDataService.deleteReward db id err).2) ∧
    (∀ (db : Database) (fid : String) (uid err : Option String),
      envListOk (SupabaseDataService.fetchPointEntries db fid uid err)) ∧
    (∀ (db : Database) (row : PointEntryRow) (err : Option String),
      envOk (SupabaseDataService.createPointEntry db row err).2) ∧
    (∀ (db : Database) (id : String) (patch : PointEntryRow → PointEntryRow)
        (err : Option String),
      envOk (SupabaseDataService.updatePointEntry db id patch err).2) ∧
    (∀ (db : Database) (id : String) (ap : Bool) (apBy : String) (now : Nat)
        (err : Option String),
      envOk (SupabaseDataService.approvePointEntry db id ap apBy now err).2) ∧
    (∀ (db : Database) (fid : String) (uid err : Option String),
      envListOk (SupabaseDataService.fetchRewardRedemptions db fid uid err)) ∧
    (∀ (db : Database) (row : RewardRedemptionRow) (err : Option String),
      envOk (SupabaseDataService.createRewardRedemption db row err).2) ∧
    (∀ (db : Database) (id : String) (ap : Bool) (apBy : String) (now : Nat)
        (err : Option String),
      envOk (SupabaseDataService.approveRewardRedemption db id ap apBy now err).2) ∧
    (∀ o : Except String String, envOk (SupabaseAuthService.signIn o)) ∧
    (∀ (db : Database) (email pw dn role : String)
        (o : SupabaseAuthService.SignUpOutcome),
      envOk (SupabaseAuthService.signUp db email pw dn role o).2) ∧
    (∀ o : Option String, envOk (SupabaseAuthService.signOut o)) ∧
    (∀ (db : Database) (uid : String) (err : Option String),
      envOk (SupabaseAuthService.fetchUserProfile db uid err)) ∧
    (∀ (α : Type) (b : String) (tok : Option String) (ep : String)
        (o : FetchOutcome α),
      envOk (RestApiDataService.apiCall b tok ep o).2) ∧
    (∀ (α : Type) (b : String) (tok : Option String) (ep : String)
        (o : FetchOutcome (List α)) (cnt : Option Nat),
      envListOk (RestApiDataService.apiListCall b tok ep o cnt).2) ∧
    (∀ (α : Type) (b k ep : String) (o : FetchOutcome α),
      envOk (RestApiAuthService.apiCall b k ep o).2) ∧
    (∀ (b k : String) (st : RestApiAuthService.AuthState)
        (o : FetchOutcome RestApiAuthService.SignInPayload),
      envOk (RestApiAuthService.signIn b k st o).2.2) ∧
    (∀ (b k : String) (st : RestApiAuthService.AuthState)
        (o : FetchOutcome RestApiAuthService.SignInPayload),
      envOk (RestApiAuthService.signUp b k st o).2.2) ∧
    (∀ st : RestApiAuthService.AuthState,
      envOk (RestApiAuthService.signOut st).2.2) ∧
    (∀ (b k uid : String) (o : FetchOutcome String),
      envOk (RestApiAuthService.fetchUserProfile b k uid o).2) := by
  refine ⟨?_, ?_, ?_, ?_, ?_, ?_, ?_, ?_, ?_, ?_, ?_, ?_, ?_, ?_, ?_, ?_, ?_,
    ?_, ?_, ?_, ?_, ?_, ?_, ?_, ?_, ?_, ?_, ?_, ?_⟩
  · intro db fid err
    cases err <;> simp [envListOk, SupabaseDataService.fetchKidsWithPoints]
  · intro db fid err
    cases err <;> simp [envListOk, SupabaseDataService.fetchPendingActivities]
  · intro db fid err
    exact envOk_supaEnvelope _ _
  · intro db fid err
    exact envListOk_supaListEnvelope _ _
  · intro db row err
    exact envOk_supaInsert _ _ _
  · intro db id patch err
    exact envOk_supaSingleUpdate _ _ _ _
  · intro db id err
    exact envOk_supaDelete _ _ _
  · intro db fid err
    exact envListOk_supaListEnvelope _ _
  · intro db row err
    exact envOk_supaInsert _ _ _
  · intro db id patch err
    exact envOk_supaSingleUpdate _ _ _ _
  · intro db id err
    exact envOk_supaDelete _ _ _
  · intro db fid uid err
    exact envListOk_supaListEnvelope _ _
  · intro db row err
    exact envOk_supaInsert _ _ _
  · intro db id patch err
    exact envOk_supaSingleUpdate _ _ _ _
  · intro db id ap apBy now err
    exact envOk_supaSingleUpdate _ _ _ _
  · intro db fid uid err
    exact envListOk_supaListEnvelope _ _
  · intro db row err
    exact envOk_supaInsert _ _ _
  · intro db id ap apBy now err
    exact envOk_supaSingleUpdate _ _ _ _
  · intro o
    cases o <;> simp [envOk, SupabaseAuthService.signIn]
  · intro db email pw dn role o
    obtain ⟨ar, pErr, fErr⟩ := o
    cases ar with
    | error m => simp [envOk, SupabaseAuthService.signUp]
    | ok u? =>
      cases u? with
      | none => simp [envOk, SupabaseAuthService.signUp]
      | some u =>
        cases pErr with
        | some m => simp [envOk, SupabaseAuthService.signUp]
        | none =>
          by_cases hrole : role = "parent"
          · cases fErr with
            | some m => simp [envOk, SupabaseAuthService.signUp, hrole]
            | none => simp [envOk, SupabaseAuthService.signUp, hrole]
          · simp [envOk, SupabaseAuthService.signUp, hrole]
  · intro o
    cases o <;> simp [envOk, SupabaseAuthService.signOut]
  · intro db uid err
    cases err with
    | some m => simp [envOk, SupabaseAuthService.fetchUserProfile]
    | none =>
      cases h : db.user_profiles.find? (fun p => decide (p.user_id = uid)) <;>
        simp [envOk, SupabaseAuthService.fetchUserProfile, h]
  · intro α b tok ep o
    exact envOk_fetchEnvelope o
  · intro α b tok ep o cnt
    exact envListOk_fetchListEnvelope o cnt
  · intro α b k ep o
    exact envOk_fetchEnvelope o
  · intro b k st o
    cases henv : (RestApiAuthService.apiCall b k "/auth/signin" o).2.data <;>
      simp [envOk, RestApiAuthService.signIn, henv]
  · intro b k st o
    cases henv : (RestApiAuthService.apiCall b k "/auth/signup" o).2.data <;>
      simp [envOk, RestApiAuthService.signUp, henv]
  · intro st
    simp [envOk, RestApiAuthService.signOut]
  · intro b k uid o
    exact envOk_fetchEnvelope o

end FamilyPoints
